import Mathlib

/-!
# ISEPIC cartridge emulation (`src/c64/isepic.c`)

A shallow embedding of the ISEPIC module of VICE: the module-level variables
become the fields of `State`, every C function becomes a function on `State`,
and calls into other modules (`lib_malloc`, `c64io_register`,
`cartridge_config_changed`, ...) are recorded as a list of `Effect`s in call
order.

Conventions.
* `int` flags (`isepic_enabled`, `isepic_switch`, `val`) are `Int`; a C
  condition `if (x)` is `x ≠ 0` and `!x` is `x = 0`.
* `WORD` addresses and `BYTE` values are `Nat`; every statement proved for all
  naturals holds in particular for all 16-bit addresses and all bytes.
* `unsigned int` arithmetic is reduced modulo `2 ^ 32`.
* Accesses through `isepic_ram` that C leaves undefined (null or freed
  pointer, index outside the block) make the handler return `none`.
-/

namespace Isepic

/-! ## Data model -/

/-- Detach policy of an I/O source; the module only uses `IO_DETACH_RESOURCE`. -/
inductive io_detach_t
  | IO_DETACH_RESOURCE
deriving DecidableEq, Repr

/-- The record `io_source_t` as initialised in `isepic.c`: name, detach policy,
resource name, start address, end address, address mask and the
`io_source_valid` flag (the two handler pointers are the functions below). -/
structure io_source_t where
  name : String
  detach_handling : io_detach_t
  resource_name : String
  start_address : Nat
  end_address : Nat
  address_mask : Nat
  io_source_valid : Int
deriving DecidableEq, Repr

/-- Identity of the two static devices, i.e. the addresses `&isepic_io1_device`
and `&isepic_io2_device`. -/
inductive device_ref
  | isepic_io1_device
  | isepic_io2_device
deriving DecidableEq, Repr

/-- Static initialiser of `isepic_io1_device` (registers, `$DE00-$DEFF`, mask 7;
"read is never valid"). -/
def isepic_io1_device : io_source_t :=
  { name := "ISEPIC", detach_handling := .IO_DETACH_RESOURCE, resource_name := "ISEPIC",
    start_address := 0xde00, end_address := 0xdeff, address_mask := 0x07,
    io_source_valid := 0 }

/-- Static initialiser of `isepic_io2_device` (RAM window, `$DF00-$DFFF`). -/
def isepic_io2_device_init : io_source_t :=
  { name := "ISEPIC", detach_handling := .IO_DETACH_RESOURCE, resource_name := "ISEPIC",
    start_address := 0xdf00, end_address := 0xdfff, address_mask := 0xff,
    io_source_valid := 0 }

/-- Value of the pointer `isepic_ram` together with the block it points to:
`null` is `NULL`, `live bytes` is a non-null pointer to an allocated block
holding `bytes`, `freed` is a non-null pointer whose block was handed to
`lib_free` (the variable keeps its old value). -/
inductive ram_ptr
  | null
  | live (bytes : List Nat)
  | freed
deriving DecidableEq, Repr

/-- Calls into other modules, recorded in program order. -/
inductive Effect
  | lib_malloc (size : Nat)
  | lib_free
  | c64io_register (device : device_ref)
  | c64io_unregister (item : Option device_ref)
  | cartridge_config_changed (mode_phi1 mode_phi2 wflag : Nat)
  | cartridge_trigger_freeze
  | cartridge_release_freeze
  | mem_store_without_ultimax (addr value : Nat)
deriving DecidableEq, Repr

/-- The module-level variables of `isepic.c`. -/
structure State where
  isepic_enabled : Int
  isepic_switch : Int
  isepic_ram : ram_ptr
  isepic_page : Nat
  isepic_io2_device : io_source_t
  isepic_io1_list_item : Option device_ref
  isepic_io2_list_item : Option device_ref
deriving DecidableEq, Repr

/-- State at program start: zero-initialised globals and the static
initialisers. -/
def State.init : State :=
  { isepic_enabled := 0, isepic_switch := 0, isepic_ram := .null, isepic_page := 0,
    isepic_io2_device := isepic_io2_device_init,
    isepic_io1_list_item := none, isepic_io2_list_item := none }

/-- Result of a resource setter: return code, new state, emitted calls. -/
structure Result where
  ret : Int
  state : State
  effects : List Effect
deriving DecidableEq, Repr

/-! ## External helpers -/

/-- Modelled from the spec: `lib_malloc` is defined outside the given sources;
the spec says enabling allocates the onboard buffer of fixed size. The block
has `size` bytes; its initial contents are whatever the allocator hands out,
given by `fresh`. -/
def lib_malloc (fresh : Nat → Nat) (size : Nat) : ram_ptr :=
  .live ((List.range size).map fresh)

/-- Modelled from the spec: `lib_free` is defined outside the given sources; the
spec says disabling frees the buffer. The caller's pointer variable is not
changed by the call, so a non-null pointer becomes dangling. -/
def lib_free (p : ram_ptr) : ram_ptr :=
  match p with
  | .null => .null
  | .live _ => .freed
  | .freed => .freed

/-- Modelled from the spec: `c64io_register` is defined outside the given
sources; the spec's contract is `register(handler) -> handlerId`. The list
item returned refers to the registered device. -/
def c64io_register (device : device_ref) : Option device_ref :=
  some device

/-! ## Resource setters -/

/-- The function `set_isepic_enabled(val, param)`. -/
def set_isepic_enabled (fresh : Nat → Nat) (val : Int) (s : State) : Result :=
  let r1 : State × List Effect :=
    if s.isepic_enabled ≠ 0 ∧ val = 0 then
      ({ s with
          isepic_ram := lib_free s.isepic_ram
          isepic_enabled := 0
          isepic_io1_list_item := none
          isepic_io2_list_item := none },
       [Effect.lib_free,
        Effect.c64io_unregister s.isepic_io1_list_item,
        Effect.c64io_unregister s.isepic_io2_list_item]
        ++ (if s.isepic_switch ≠ 0 then
              [Effect.cartridge_config_changed 2 2 0, Effect.cartridge_release_freeze]
            else []))
    else (s, [])
  let s1 := r1.1
  let r2 : State × List Effect :=
    if s1.isepic_enabled = 0 ∧ val ≠ 0 then
      ({ s1 with
          isepic_ram := lib_malloc fresh 2048
          isepic_enabled := 1
          isepic_io1_list_item := c64io_register .isepic_io1_device
          isepic_io2_list_item := c64io_register .isepic_io2_device },
       [Effect.lib_malloc 2048,
        Effect.c64io_register .isepic_io1_device,
        Effect.c64io_register .isepic_io2_device]
        ++ (if s1.isepic_switch ≠ 0 then
              [Effect.cartridge_config_changed 2 3 0]
            else []))
    else (s1, [])
  { ret := 0, state := r2.1, effects := r1.2 ++ r2.2 }

/-- The function `set_isepic_switch(val, param)`. -/
def set_isepic_switch (val : Int) (s : State) : Result :=
  let r1 : State × List Effect :=
    if s.isepic_switch ≠ 0 ∧ val = 0 then
      ({ s with isepic_switch := 0 },
       if s.isepic_enabled ≠ 0 then
         [Effect.cartridge_config_changed 2 2 0, Effect.cartridge_release_freeze]
       else [])
    else (s, [])
  let s1 := r1.1
  let r2 : State × List Effect :=
    if s1.isepic_switch = 0 ∧ val ≠ 0 then
      ({ s1 with isepic_switch := 1 },
       if s1.isepic_enabled ≠ 0 then [Effect.cartridge_trigger_freeze] else [])
    else (s1, [])
  { ret := 0, state := r2.1, effects := r1.2 ++ r2.2 }

/-! ## Bus handlers -/

/-- The function `isepic_reg_read(addr)`: returned byte and new state. -/
def isepic_reg_read (addr : Nat) (s : State) : Nat × State :=
  let s1 :=
    if s.isepic_switch ≠ 0 then
      { s with isepic_page := ((addr &&& 4) >>> 2) ||| (addr &&& 2) ||| ((addr &&& 1) <<< 2) }
    else s
  (0, s1)

/-- The function `isepic_reg_store(addr, byte)`. -/
def isepic_reg_store (addr : Nat) (_byte : Nat) (s : State) : State :=
  if s.isepic_switch ≠ 0 then
    { s with isepic_page := ((addr &&& 4) >>> 2) ||| (addr &&& 2) ||| ((addr &&& 1) <<< 2) }
  else s

/-- The index expression `(isepic_page * 256) + (addr & 0xff)` shared by the
window and ROM-high handlers, in `unsigned int` arithmetic. -/
def ram_index (page addr : Nat) : Nat :=
  (page * 256 + (addr &&& 0xff)) % 4294967296

/-- Load `isepic_ram[i]`; `none` when the access is undefined in C. -/
def ram_load (p : ram_ptr) (i : Nat) : Option Nat :=
  match p with
  | .live bytes => bytes[i]?
  | _ => none

/-- Store `isepic_ram[i] = byte`; `none` when the access is undefined in C. -/
def ram_store (p : ram_ptr) (i : Nat) (byte : Nat) : Option ram_ptr :=
  match p with
  | .live bytes => if i < bytes.length then some (.live (bytes.set i byte)) else none
  | _ => none

/-- The function `isepic_window_read(addr)`: returned byte and new state. -/
def isepic_window_read (addr : Nat) (s : State) : Option (Nat × State) :=
  let s1 := { s with isepic_io2_device := { s.isepic_io2_device with io_source_valid := 0 } }
  if s1.isepic_switch ≠ 0 then
    let s2 := { s1 with isepic_io2_device := { s1.isepic_io2_device with io_source_valid := 1 } }
    (ram_load s2.isepic_ram (ram_index s2.isepic_page addr)).map (fun retval => (retval, s2))
  else
    some (0, s1)

/-- The function `isepic_window_store(addr, byte)`. -/
def isepic_window_store (addr : Nat) (byte : Nat) (s : State) : Option State :=
  if s.isepic_switch ≠ 0 then
    (ram_store s.isepic_ram (ram_index s.isepic_page addr) byte).map
      (fun p => { s with isepic_ram := p })
  else
    some s

/-- The function `isepic_romh_read(addr)`; `mem_read_without_ultimax` belongs to
the memory subsystem and is a parameter. -/
def isepic_romh_read (mem_read_without_ultimax : Nat → Nat) (addr : Nat) (s : State) :
    Option Nat :=
  if addr = 0xfffa ∨ addr = 0xfffb then
    ram_load s.isepic_ram (ram_index s.isepic_page addr)
  else
    some (mem_read_without_ultimax addr)

/-- The function `isepic_romh_store(addr, byte)`: new state and emitted calls. -/
def isepic_romh_store (addr : Nat) (byte : Nat) (s : State) : Option (State × List Effect) :=
  if addr = 0xfffa ∨ addr = 0xfffb then
    (ram_store s.isepic_ram (ram_index s.isepic_page addr) byte).map
      (fun p => ({ s with isepic_ram := p }, []))
  else
    some (s, [Effect.mem_store_without_ultimax addr byte])

/-- The function `isepic_roml_read(addr)`. -/
def isepic_roml_read (mem_read_without_ultimax : Nat → Nat) (addr : Nat) : Nat :=
  mem_read_without_ultimax addr

/-- The function `isepic_roml_store(addr, value)`. -/
def isepic_roml_store (addr : Nat) (value : Nat) : List Effect :=
  [Effect.mem_store_without_ultimax addr value]

/-- The function `isepic_1000_7fff_read(addr)`. -/
def isepic_1000_7fff_read (mem_read_without_ultimax : Nat → Nat) (addr : Nat) : Nat :=
  mem_read_without_ultimax addr

/-- The function `isepic_1000_7fff_store(addr, value)`. -/
def isepic_1000_7fff_store (addr : Nat) (value : Nat) : List Effect :=
  [Effect.mem_store_without_ultimax addr value]

/-- The function `isepic_a000_bfff_read(addr)`. -/
def isepic_a000_bfff_read (mem_read_without_ultimax : Nat → Nat) (addr : Nat) : Nat :=
  mem_read_without_ultimax addr

/-- The function `isepic_a000_bfff_store(addr, value)`. -/
def isepic_a000_bfff_store (addr : Nat) (value : Nat) : List Effect :=
  [Effect.mem_store_without_ultimax addr value]

/-- The function `isepic_c000_cfff_read(addr)`. -/
def isepic_c000_cfff_read (mem_read_without_ultimax : Nat → Nat) (addr : Nat) : Nat :=
  mem_read_without_ultimax addr

/-- The function `isepic_c000_cfff_store(addr, value)`. -/
def isepic_c000_cfff_store (addr : Nat) (value : Nat) : List Effect :=
  [Effect.mem_store_without_ultimax addr value]

/-! ## The page table of the header comment -/

/-- The PAGE / ACCESS ADDRESS table of the header comment of `isepic.c`, as
pairs (page, access address). -/
def page_access_table : List (Nat × Nat) :=
  [(0, 0xDE00), (1, 0xDE04), (2, 0xDE02), (3, 0xDE06),
   (4, 0xDE01), (5, 0xDE05), (6, 0xDE03), (7, 0xDE07)]

/-- Page the header table lists for the access address that has the same low
three bits as `addr` (the 8-byte area is mirrored). -/
def table_page (addr : Nat) : Option Nat :=
  (page_access_table.find? (fun e => e.2 % 8 = addr % 8)).map Prod.fst

/-! ## Call sequences -/

/-- One call into the module: a resource setter or a bus handler. -/
inductive Op
  | set_isepic_enabled (fresh : Nat → Nat) (val : Int)
  | set_isepic_switch (val : Int)
  | isepic_reg_read (addr : Nat)
  | isepic_reg_store (addr byte : Nat)
  | isepic_window_read (addr : Nat)
  | isepic_window_store (addr byte : Nat)
  | isepic_romh_read (mem_read_without_ultimax : Nat → Nat) (addr : Nat)
  | isepic_romh_store (addr byte : Nat)
  | isepic_roml_read (mem_read_without_ultimax : Nat → Nat) (addr : Nat)
  | isepic_roml_store (addr value : Nat)
  | isepic_1000_7fff_read (mem_read_without_ultimax : Nat → Nat) (addr : Nat)
  | isepic_1000_7fff_store (addr value : Nat)
  | isepic_a000_bfff_read (mem_read_without_ultimax : Nat → Nat) (addr : Nat)
  | isepic_a000_bfff_store (addr value : Nat)
  | isepic_c000_cfff_read (mem_read_without_ultimax : Nat → Nat) (addr : Nat)
  | isepic_c000_cfff_store (addr value : Nat)

/-- State after one call; `none` when the call has undefined behaviour. -/
def step (op : Op) (s : State) : Option State :=
  match op with
  | .set_isepic_enabled fresh val => some (set_isepic_enabled fresh val s).state
  | .set_isepic_switch val => some (set_isepic_switch val s).state
  | .isepic_reg_read addr => some (isepic_reg_read addr s).2
  | .isepic_reg_store addr byte => some (isepic_reg_store addr byte s)
  | .isepic_window_read addr => (isepic_window_read addr s).map Prod.snd
  | .isepic_window_store addr byte => isepic_window_store addr byte s
  | .isepic_romh_read mem addr => (isepic_romh_read mem addr s).map (fun _ => s)
  | .isepic_romh_store addr byte => (isepic_romh_store addr byte s).map Prod.fst
  | .isepic_roml_read _ _ => some s
  | .isepic_roml_store _ _ => some s
  | .isepic_1000_7fff_read _ _ => some s
  | .isepic_1000_7fff_store _ _ => some s
  | .isepic_a000_bfff_read _ _ => some s
  | .isepic_a000_bfff_store _ _ => some s
  | .isepic_c000_cfff_read _ _ => some s
  | .isepic_c000_cfff_store _ _ => some s

/-- State after a finite sequence of calls, first call first. -/
def run : List Op → State → Option State
  | [], s => some s
  | op :: ops, s => (step op s).bind (run ops)

/-- A sequence of `set_isepic_switch` calls: final state and the concatenated
effect trace. -/
def switch_calls : List Int → State → State × List Effect
  | [], s => (s, [])
  | v :: vs, s =>
    let r := set_isepic_switch v s
    let rest := switch_calls vs r.state
    (rest.1, r.effects ++ rest.2)

/-- Number of calls in a sequence of `set_isepic_switch` calls that changed the
switch from off to on. -/
def rising_edges : List Int → State → Nat
  | [], _ => 0
  | v :: vs, s =>
    let s1 := (set_isepic_switch v s).state
    (if s.isepic_switch = 0 ∧ s1.isepic_switch ≠ 0 then 1 else 0) + rising_edges vs s1

/-- Number of calls in a sequence of `set_isepic_switch` calls that changed the
switch from on to off. -/
def falling_edges : List Int → State → Nat
  | [], _ => 0
  | v :: vs, s =>
    let s1 := (set_isepic_switch v s).state
    (if s.isepic_switch ≠ 0 ∧ s1.isepic_switch = 0 then 1 else 0) + falling_edges vs s1

/-- The onboard buffer is allocated: `isepic_ram` points to a live block. -/
def ram_ptr.is_live : ram_ptr → Bool
  | .live _ => true
  | _ => false

/-! ## Concrete states used to instantiate the results -/

/-- The initial state with the switch moved towards the computer. -/
def State.switched_on : State := { State.init with isepic_switch := 1 }

/-- An enabled instance with the switch on, page 5 selected and a zero-filled
2048-byte buffer. -/
def State.mapped_page5 : State :=
  { isepic_enabled := 1, isepic_switch := 1,
    isepic_ram := .live (List.replicate 2048 0), isepic_page := 5,
    isepic_io2_device := isepic_io2_device_init,
    isepic_io1_list_item := some .isepic_io1_device,
    isepic_io2_list_item := some .isepic_io2_device }

/-- An enabled instance with the switch away from the computer and a
zero-filled 2048-byte buffer. -/
def State.hidden_enabled : State :=
  { isepic_enabled := 1, isepic_switch := 0,
    isepic_ram := .live (List.replicate 2048 0), isepic_page := 0,
    isepic_io2_device := isepic_io2_device_init,
    isepic_io1_list_item := some .isepic_io1_device,
    isepic_io2_list_item := some .isepic_io2_device }

/-- Well-formedness of the module state: the page is below 8; when enabled the
pointer refers to a live 2048-byte block and both list items are held; when
disabled the block is not live and no list item is held. -/
def State.wf (s : State) : Prop :=
  s.isepic_page < 8
  ∧ (s.isepic_enabled ≠ 0 →
      (∃ bytes : List Nat, s.isepic_ram = .live bytes ∧ bytes.length = 2048)
      ∧ s.isepic_io1_list_item = some .isepic_io1_device
      ∧ s.isepic_io2_list_item = some .isepic_io2_device)
  ∧ (s.isepic_enabled = 0 →
      s.isepic_ram.is_live = false
      ∧ s.isepic_io1_list_item = none
      ∧ s.isepic_io2_list_item = none)

/-- The test `isepic_ram == NULL`. -/
def ram_ptr.is_null : ram_ptr → Bool
  | .null => true
  | _ => false

/-- Enable the cartridge, then disable it again. -/
def enable_then_disable : List Op :=
  [Op.set_isepic_enabled (fun _ => 0) 1, Op.set_isepic_enabled (fun _ => 0) 0]

/-- Recognises an allocation call. -/
def Effect.is_malloc : Effect → Bool
  | .lib_malloc _ => true
  | _ => false

/-- Recognises a call that frees the buffer. -/
def Effect.is_free : Effect → Bool
  | .lib_free => true
  | _ => false

/-- Modelled from the spec: the initial contents of a block returned by
`lib_malloc`, which is defined outside the given sources. The spec says that
disabling and re-enabling "returns to a zeroed fresh buffer", so every byte of
a fresh block is 0. -/
def lib_malloc_zeroed : Nat → Nat := fun _ => 0

/-- An enabled instance with the switch on, page 5 selected and a buffer whose
2048 bytes all hold `0xAA`. -/
def State.mapped_dirty : State :=
  { isepic_enabled := 1, isepic_switch := 1,
    isepic_ram := .live (List.replicate 2048 0xAA), isepic_page := 5,
    isepic_io2_device := isepic_io2_device_init,
    isepic_io1_list_item := some .isepic_io1_device,
    isepic_io2_list_item := some .isepic_io2_device }

/-! ## Register range: page selection -/

theorem and_four_mod (a : Nat) : a &&& 4 = (a % 8) &&& 4 := by
  have h : a % 8 = a &&& 7 := by simpa using (Nat.and_pow_two_sub_one_eq_mod a 3).symm
  rw [h, Nat.and_assoc]; rfl

theorem and_two_mod (a : Nat) : a &&& 2 = (a % 8) &&& 2 := by
  have h : a % 8 = a &&& 7 := by simpa using (Nat.and_pow_two_sub_one_eq_mod a 3).symm
  rw [h, Nat.and_assoc]; rfl

theorem and_one_mod (a : Nat) : a &&& 1 = (a % 8) &&& 1 := by
  have h : a % 8 = a &&& 7 := by simpa using (Nat.and_pow_two_sub_one_eq_mod a 3).symm
  rw [h, Nat.and_assoc]; rfl

theorem shift_two_and_one_mod (a : Nat) : (a >>> 2) &&& 1 = ((a % 8) >>> 2) &&& 1 := by
  rw [Nat.and_one_is_mod, Nat.and_one_is_mod, Nat.shiftRight_eq_div_pow,
    Nat.shiftRight_eq_div_pow]
  omega

/-- The expression assigned to `isepic_page` agrees with the header table. -/
theorem page_expr_eq_table (a : Nat) :
    table_page a = some (((a &&& 4) >>> 2) ||| (a &&& 2) ||| ((a &&& 1) <<< 2)) := by
  rw [and_four_mod a, and_two_mod a, and_one_mod a]
  unfold table_page
  have hr : a % 8 < 8 := Nat.mod_lt _ (by norm_num)
  generalize a % 8 = r at hr
  interval_cases r <;> rfl

/-- The expression assigned to `isepic_page` equals the spec's formula. -/
theorem page_expr_eq_formula (a : Nat) :
    ((a &&& 4) >>> 2) ||| (a &&& 2) ||| ((a &&& 1) <<< 2)
      = ((a >>> 2) &&& 1) ||| (a &&& 2) ||| ((a &&& 1) <<< 2) := by
  rw [and_four_mod a, and_two_mod a, and_one_mod a, shift_two_and_one_mod a]
  have hr : a % 8 < 8 := Nat.mod_lt _ (by norm_num)
  generalize a % 8 = r at hr
  interval_cases r <;> rfl

/-- C1: with the switch on, a register-range read at `a` and a register-range
write of `v` at `a` each leave `isepic_page` equal to the entry of the header
table for the low three bits of `a` (000->0, 100->1, 010->2, 110->3, 001->4,
101->5, 011->6, 111->7), which is `((a>>2)&1) | (a&2) | ((a&1)<<2)` and is not
`a & 7` (at `$DE04` the page is 1 while `a & 7` is 4). Addresses that agree in
their low three bits, such as `$DE00` and `$DE08`, select the same page; offset
`0x04` selects page 1 and offset `0x02` selects page 2. -/
theorem reg_access_selects_table_page (s : State) (a v : Nat) (hsw : s.isepic_switch ≠ 0) :
    table_page a = some (isepic_reg_read a s).2.isepic_page
    ∧ table_page a = some (isepic_reg_store a v s).isepic_page
    ∧ [0, 4, 2, 6, 1, 5, 3, 7].map table_page
        = [some 0, some 1, some 2, some 3, some 4, some 5, some 6, some 7]
    ∧ (isepic_reg_read a s).2.isepic_page
        = ((a >>> 2) &&& 1) ||| (a &&& 2) ||| ((a &&& 1) <<< 2)
    ∧ (isepic_reg_store a v s).isepic_page
        = ((a >>> 2) &&& 1) ||| (a &&& 2) ||| ((a &&& 1) <<< 2)
    ∧ (∀ b w : Nat, b % 8 = a % 8 →
        (isepic_reg_read b s).2.isepic_page = (isepic_reg_read a s).2.isepic_page
        ∧ (isepic_reg_store b w s).isepic_page = (isepic_reg_store a v s).isepic_page)
    ∧ (isepic_reg_read 0xDE00 s).2.isepic_page = (isepic_reg_read 0xDE08 s).2.isepic_page
    ∧ (isepic_reg_store 0xDE00 v s).isepic_page = (isepic_reg_store 0xDE08 v s).isepic_page
    ∧ (isepic_reg_read 0xDE04 s).2.isepic_page = 1
    ∧ (isepic_reg_store 0xDE04 v s).isepic_page = 1
    ∧ (isepic_reg_read 0xDE02 s).2.isepic_page = 2
    ∧ (isepic_reg_store 0xDE02 v s).isepic_page = 2
    ∧ (isepic_reg_read 0xDE04 s).2.isepic_page ≠ 0xDE04 &&& 7
    ∧ (isepic_reg_store 0xDE04 v s).isepic_page ≠ 0xDE04 &&& 7 := by
  have hr : ∀ b : Nat, (isepic_reg_read b s).2.isepic_page
      = ((b &&& 4) >>> 2) ||| (b &&& 2) ||| ((b &&& 1) <<< 2) := by
    intro b; simp [isepic_reg_read, hsw]
  have hw : ∀ b w : Nat, (isepic_reg_store b w s).isepic_page
      = ((b &&& 4) >>> 2) ||| (b &&& 2) ||| ((b &&& 1) <<< 2) := by
    intro b w; simp [isepic_reg_store, hsw]
  have hmirror : ∀ b : Nat, b % 8 = a % 8 →
      ((b &&& 4) >>> 2) ||| (b &&& 2) ||| ((b &&& 1) <<< 2)
        = ((a &&& 4) >>> 2) ||| (a &&& 2) ||| ((a &&& 1) <<< 2) := by
    intro b hb
    rw [and_four_mod b, and_two_mod b, and_one_mod b, hb,
      ← and_four_mod a, ← and_two_mod a, ← and_one_mod a]
  refine ⟨?_, ?_, by decide, ?_, ?_, ?_, ?_, ?_, ?_, ?_, ?_, ?_, ?_, ?_⟩
  · rw [hr]; exact page_expr_eq_table a
  · rw [hw]; exact page_expr_eq_table a
  · rw [hr]; exact page_expr_eq_formula a
  · rw [hw]; exact page_expr_eq_formula a
  · intro b w hb
    rw [hr, hr, hw, hw]
    exact ⟨hmirror b hb, hmirror b hb⟩
  · rw [hr, hr]; decide
  · rw [hw, hw]; decide
  · rw [hr]; decide
  · rw [hw]; decide
  · rw [hr]; decide
  · rw [hw]; decide
  · rw [hr]; decide
  · rw [hw]; decide

/-- Instance of C1: switch on, access at `$DE05` (low bits 101) selects page 5. -/
theorem reg_access_selects_table_page_witness :
    State.switched_on.isepic_switch ≠ 0
    ∧ table_page 0xDE05 = some (isepic_reg_read 0xDE05 State.switched_on).2.isepic_page
    ∧ (isepic_reg_read 0xDE05 State.switched_on).2.isepic_page = 5 :=
  ⟨by decide,
   (reg_access_selects_table_page State.switched_on 0xDE05 0 (by decide)).1,
   by decide⟩

/-! ## RAM window -/

theorem ram_index_of_page_lt (q b : Nat) (hq : q < 8) :
    ram_index q b = q * 256 + (b &&& 0xff) ∧ ram_index q b < 2048 := by
  have hb : b &&& 0xff < 256 := Nat.and_lt_two_pow b (by norm_num : 255 < 2 ^ 8)
  unfold ram_index
  omega

theorem window_read_of_live (s : State) (bytes : List Nat) (a : Nat)
    (hsw : s.isepic_switch ≠ 0) (hram : s.isepic_ram = .live bytes) :
    (isepic_window_read a s).map Prod.fst = bytes[ram_index s.isepic_page a]? := by
  simp [isepic_window_read, hsw, hram, ram_load, Option.map_map, Function.comp_def]

theorem window_store_of_live (s : State) (bytes : List Nat) (a v : Nat)
    (hsw : s.isepic_switch ≠ 0) (hram : s.isepic_ram = .live bytes)
    (hidx : ram_index s.isepic_page a < bytes.length) :
    isepic_window_store a v s
      = some { s with isepic_ram := .live (bytes.set (ram_index s.isepic_page a) v) } := by
  simp [isepic_window_store, hsw, hram, ram_store, hidx]

/-- C2: with the switch on, a 2048-byte buffer allocated and the current page
`p < 8`, `isepic_window_store(a, v)` succeeds and changes nothing but the
buffer; afterwards a window read at `a2` on page `q` returns `v` when
`q = p` and `(a2 & 0xff) = (a & 0xff)`, and otherwise returns what it returned
before the store; before the store the read returns the byte at index
`q*256 + (a2 & 0xff)` of the buffer, so distinct (page, low byte) pairs never
alias. -/
theorem window_store_then_read (s : State) (bytes : List Nat) (a a2 v : Nat)
    (hsw : s.isepic_switch ≠ 0) (hram : s.isepic_ram = .live bytes)
    (hlen : bytes.length = 2048) (hpage : s.isepic_page < 8) :
    ∃ s1 : State, isepic_window_store a v s = some s1
      ∧ s1.isepic_page = s.isepic_page
      ∧ s1.isepic_switch = s.isepic_switch
      ∧ s1.isepic_enabled = s.isepic_enabled
      ∧ ((a2 &&& 0xff) = (a &&& 0xff) → (isepic_window_read a2 s1).map Prod.fst = some v)
      ∧ (∀ q : Nat, q < 8 →
          (isepic_window_read a2 { s with isepic_page := q }).map Prod.fst
            = bytes[q * 256 + (a2 &&& 0xff)]?
          ∧ q * 256 + (a2 &&& 0xff) < bytes.length
          ∧ (isepic_window_read a2 { s1 with isepic_page := q }).map Prod.fst
            = if q = s.isepic_page ∧ (a2 &&& 0xff) = (a &&& 0xff) then some v
              else (isepic_window_read a2 { s with isepic_page := q }).map Prod.fst) := by
  have hi := ram_index_of_page_lt s.isepic_page a hpage
  have hlt : ram_index s.isepic_page a < bytes.length := by omega
  have hread : ∀ q : Nat, q < 8 →
      (isepic_window_read a2
          { ({ s with isepic_ram := .live (bytes.set (ram_index s.isepic_page a) v) } : State)
            with isepic_page := q }).map Prod.fst
        = if q = s.isepic_page ∧ (a2 &&& 0xff) = (a &&& 0xff) then some v
          else bytes[ram_index q a2]? := by
    intro q hq
    have hj := ram_index_of_page_lt q a2 hq
    have ha : a &&& 0xff < 256 := Nat.and_lt_two_pow a (by norm_num : 255 < 2 ^ 8)
    have ha2 : a2 &&& 0xff < 256 := Nat.and_lt_two_pow a2 (by norm_num : 255 < 2 ^ 8)
    refine (window_read_of_live
      { ({ s with isepic_ram := .live (bytes.set (ram_index s.isepic_page a) v) } : State)
        with isepic_page := q }
      (bytes.set (ram_index s.isepic_page a) v) a2 hsw rfl).trans ?_
    show (bytes.set (ram_index s.isepic_page a) v)[ram_index q a2]? = _
    rw [List.getElem?_set]
    by_cases hc : q = s.isepic_page ∧ (a2 &&& 0xff) = (a &&& 0xff)
    · have he : ram_index s.isepic_page a = ram_index q a2 := by
        rw [hi.1, hj.1, hc.1, hc.2]
      rw [if_pos he, if_pos hlt, if_pos hc]
    · have hne : ram_index s.isepic_page a ≠ ram_index q a2 := by
        rw [hi.1, hj.1]
        intro he
        apply hc
        constructor <;> omega
      rw [if_neg hne, if_neg hc]
  refine ⟨_, window_store_of_live s bytes a v hsw hram hlt, rfl, rfl, rfl, ?_, ?_⟩
  · intro hlow
    have h := hread s.isepic_page hpage
    rw [if_pos ⟨rfl, hlow⟩] at h
    exact h
  · intro q hq
    have hj := ram_index_of_page_lt q a2 hq
    have hbefore : (isepic_window_read a2 { s with isepic_page := q }).map Prod.fst
        = bytes[q * 256 + (a2 &&& 0xff)]? := by
      refine (window_read_of_live { s with isepic_page := q } bytes a2 hsw hram).trans ?_
      show bytes[ram_index q a2]? = _
      rw [hj.1]
    refine ⟨hbefore, by omega, ?_⟩
    rw [hread q hq, hbefore, hj.1]

/-- Instance of C2: page 5, store `0x42` at `$DF10`, read `$DF10` returns
`0x42`. -/
theorem window_store_then_read_witness :
    ∃ s1 : State, isepic_window_store 0xDF10 0x42 State.mapped_page5 = some s1
      ∧ (isepic_window_read 0xDF10 s1).map Prod.fst = some 0x42 := by
  obtain ⟨s1, h1, _, _, _, h2, _⟩ :=
    window_store_then_read State.mapped_page5 (List.replicate 2048 0) 0xDF10 0xDF10 0x42
      (by decide) rfl (List.length_replicate _ _) (by decide)
  exact ⟨s1, h1, h2 rfl⟩

/-! ## Freeze switch -/

theorem set_isepic_switch_enabled_unchanged (w : Int) (t : State) :
    (set_isepic_switch w t).state.isepic_enabled = t.isepic_enabled := by
  unfold set_isepic_switch
  by_cases h1 : t.isepic_switch = 0 <;> by_cases h2 : w = 0 <;> simp [h1, h2]

theorem set_isepic_switch_effects_of_enabled (w : Int) (t : State) (hen : t.isepic_enabled ≠ 0) :
    (set_isepic_switch w t).effects
      = if t.isepic_switch = 0 ∧ (set_isepic_switch w t).state.isepic_switch ≠ 0 then
          [Effect.cartridge_trigger_freeze]
        else if t.isepic_switch ≠ 0 ∧ (set_isepic_switch w t).state.isepic_switch = 0 then
          [Effect.cartridge_config_changed 2 2 0, Effect.cartridge_release_freeze]
        else [] := by
  unfold set_isepic_switch
  by_cases h1 : t.isepic_switch = 0 <;> by_cases h2 : w = 0 <;> simp [h1, h2, hen]

theorem set_isepic_switch_effects_of_disabled (w : Int) (t : State) (hen : t.isepic_enabled = 0) :
    (set_isepic_switch w t).effects = [] := by
  unfold set_isepic_switch
  by_cases h1 : t.isepic_switch = 0 <;> by_cases h2 : w = 0 <;> simp [h1, h2, hen]

theorem set_isepic_switch_no_trigger_of_steady (w : Int) (t : State)
    (hst : t.isepic_switch = 0 ↔ (set_isepic_switch w t).state.isepic_switch = 0) :
    Effect.cartridge_trigger_freeze ∉ (set_isepic_switch w t).effects := by
  revert hst
  unfold set_isepic_switch
  by_cases h1 : t.isepic_switch = 0 <;> by_cases h2 : w = 0 <;> simp [h1, h2]

theorem set_isepic_enabled_no_trigger (fresh : Nat → Nat) (w : Int) (t : State) :
    Effect.cartridge_trigger_freeze ∉ (set_isepic_enabled fresh w t).effects := by
  unfold set_isepic_enabled
  by_cases h1 : t.isepic_enabled = 0 <;> by_cases h2 : w = 0 <;>
    by_cases h3 : t.isepic_switch = 0 <;> simp [h1, h2, h3]

theorem switch_calls_counts (vals : List Int) :
    ∀ s : State, s.isepic_enabled ≠ 0 →
      (switch_calls vals s).2.count Effect.cartridge_trigger_freeze = rising_edges vals s
      ∧ (switch_calls vals s).2.count Effect.cartridge_release_freeze = falling_edges vals s
      ∧ (switch_calls vals s).2.count (Effect.cartridge_config_changed 2 2 0)
          = falling_edges vals s := by
  induction vals with
  | nil => intro s _; simp [switch_calls, rising_edges, falling_edges]
  | cons v vs ih =>
    intro s hen
    have hen1 : (set_isepic_switch v s).state.isepic_enabled ≠ 0 := by
      rw [set_isepic_switch_enabled_unchanged]; exact hen
    obtain ⟨i1, i2, i3⟩ := ih _ hen1
    have he := set_isepic_switch_effects_of_enabled v s hen
    simp only [switch_calls, rising_edges, falling_edges, List.count_append, i1, i2, i3, he]
    by_cases h1 : s.isepic_switch = 0 <;>
      by_cases h2 : (set_isepic_switch v s).state.isepic_switch = 0 <;> simp [h1, h2]

/-- C3: on an enabled instance, for every finite sequence of `set_isepic_switch`
calls the number of `cartridge_trigger_freeze` calls emitted equals the number
of calls that changed the switch from off to on, and the number of
`cartridge_release_freeze` calls, as well as the number of configuration
reverts `cartridge_config_changed(2, 2, 0)`, equals the number of calls that
changed it from on to off. Off->on->on fires the trigger once and a following
on->off reverts and releases once. Each call on an enabled instance emits
exactly the trigger on a rising edge, exactly revert and release on a falling
edge, and nothing otherwise; no trigger is emitted by a call that leaves the
switch steady, by a call made while disabled, or by `set_isepic_enabled`. -/
theorem switch_edges_fire_once (s : State) (vals : List Int) (hen : s.isepic_enabled ≠ 0) :
    (switch_calls vals s).2.count Effect.cartridge_trigger_freeze = rising_edges vals s
    ∧ (switch_calls vals s).2.count Effect.cartridge_release_freeze = falling_edges vals s
    ∧ (switch_calls vals s).2.count (Effect.cartridge_config_changed 2 2 0)
        = falling_edges vals s
    ∧ (s.isepic_switch = 0 → ∀ v1 v2 : Int, v1 ≠ 0 → v2 ≠ 0 →
        (switch_calls [v1, v2] s).2 = [Effect.cartridge_trigger_freeze]
        ∧ (switch_calls [v1, v2, 0] s).2
            = [Effect.cartridge_trigger_freeze, Effect.cartridge_config_changed 2 2 0,
               Effect.cartridge_release_freeze])
    ∧ (∀ (w : Int) (t : State), t.isepic_enabled ≠ 0 →
        (set_isepic_switch w t).effects
          = if t.isepic_switch = 0 ∧ (set_isepic_switch w t).state.isepic_switch ≠ 0 then
              [Effect.cartridge_trigger_freeze]
            else if t.isepic_switch ≠ 0 ∧ (set_isepic_switch w t).state.isepic_switch = 0 then
              [Effect.cartridge_config_changed 2 2 0, Effect.cartridge_release_freeze]
            else [])
    ∧ (∀ (w : Int) (t : State),
        (t.isepic_switch = 0 ↔ (set_isepic_switch w t).state.isepic_switch = 0) →
        Effect.cartridge_trigger_freeze ∉ (set_isepic_switch w t).effects)
    ∧ (∀ (w : Int) (t : State), t.isepic_enabled = 0 →
        (set_isepic_switch w t).effects = [])
    ∧ (∀ (fresh : Nat → Nat) (w : Int) (t : State),
        Effect.cartridge_trigger_freeze ∉ (set_isepic_enabled fresh w t).effects) := by
  obtain ⟨c1, c2, c3⟩ := switch_calls_counts vals s hen
  refine ⟨c1, c2, c3, ?_, set_isepic_switch_effects_of_enabled,
    set_isepic_switch_no_trigger_of_steady, set_isepic_switch_effects_of_disabled,
    set_isepic_enabled_no_trigger⟩
  intro hsw v1 v2 h1 h2
  simp [switch_calls, set_isepic_switch, hsw, h1, h2, hen]

/-- Instance of C3: enabled, switch off, calls 1, 1, 0: one trigger, one
release. -/
theorem switch_edges_fire_once_witness :
    State.hidden_enabled.isepic_enabled ≠ 0
    ∧ (switch_calls [1, 1, 0] State.hidden_enabled).2.count Effect.cartridge_trigger_freeze = 1
    ∧ (switch_calls [1, 1, 0] State.hidden_enabled).2.count Effect.cartridge_release_freeze = 1 :=
  ⟨by decide,
   (switch_edges_fire_once State.hidden_enabled [1, 1, 0] (by decide)).1.trans (by decide),
   (switch_edges_fire_once State.hidden_enabled [1, 1, 0] (by decide)).2.1.trans (by decide)⟩

/-! ## Reachable states -/

theorem page_expr_lt (a : Nat) :
    ((a &&& 4) >>> 2) ||| (a &&& 2) ||| ((a &&& 1) <<< 2) < 8 := by
  rw [and_four_mod a, and_two_mod a, and_one_mod a]
  have hr : a % 8 < 8 := Nat.mod_lt _ (by norm_num)
  generalize a % 8 = r at hr
  interval_cases r <;> decide

theorem wf_init : State.init.wf := by
  refine ⟨by decide, ?_, ?_⟩
  · intro h; exact absurd rfl h
  · intro _; exact ⟨rfl, rfl, rfl⟩

theorem wf_set_isepic_enabled (fresh : Nat → Nat) (val : Int) (s : State) (h : s.wf) :
    (set_isepic_enabled fresh val s).state.wf := by
  obtain ⟨hp, hen, hdis⟩ := h
  unfold set_isepic_enabled
  by_cases h1 : s.isepic_enabled = 0 <;> by_cases h2 : val = 0
  · simpa [h1, h2, State.wf] using ⟨hp, hdis h1⟩
  · simp [h1, h2, State.wf, hp, lib_malloc, c64io_register]
  · obtain ⟨⟨bytes, hb, _⟩, _, _⟩ := hen h1
    simp [h1, h2, State.wf, hp, hb, lib_free, ram_ptr.is_live]
  · simpa [h1, h2, State.wf] using ⟨hp, hen h1⟩

theorem wf_set_isepic_switch (val : Int) (s : State) (h : s.wf) :
    (set_isepic_switch val s).state.wf := by
  unfold set_isepic_switch
  by_cases h1 : s.isepic_switch = 0 <;> by_cases h2 : val = 0 <;>
    simpa [h1, h2, State.wf] using h

theorem wf_ram_store (s : State) (i byte : Nat) (p : ram_ptr) (h : s.wf)
    (hs : ram_store s.isepic_ram i byte = some p) :
    ({ s with isepic_ram := p } : State).wf := by
  obtain ⟨hp, hen, hdis⟩ := h
  cases hr : s.isepic_ram with
  | null => simp [hr, ram_store] at hs
  | freed => simp [hr, ram_store] at hs
  | live bytes =>
    rw [hr] at hs
    simp only [ram_store] at hs
    split at hs
    · injection hs with hs
      subst hs
      refine ⟨hp, ?_, ?_⟩
      · intro he
        obtain ⟨⟨b, hb, hl⟩, i1, i2⟩ := hen he
        rw [hr] at hb
        injection hb with hb
        subst hb
        exact ⟨⟨_, rfl, by simpa using hl⟩, i1, i2⟩
      · intro he
        have := (hdis he).1
        rw [hr] at this
        simp [ram_ptr.is_live] at this
    · simp at hs

theorem map_some_inv {α β : Type} (f : α → β) (o : Option α) (b : β)
    (h : o.map f = some b) : ∃ a : α, o = some a ∧ f a = b := by
  cases o with
  | none => simp at h
  | some a => exact ⟨a, rfl, by simpa using h⟩

theorem wf_step (op : Op) (s s1 : State) (h : s.wf) (hs : step op s = some s1) : s1.wf := by
  cases op with
  | set_isepic_enabled fresh val =>
    simp only [step, Option.some.injEq] at hs; subst hs
    exact wf_set_isepic_enabled fresh val s h
  | set_isepic_switch val =>
    simp only [step, Option.some.injEq] at hs; subst hs
    exact wf_set_isepic_switch val s h
  | isepic_reg_read addr =>
    simp only [step, Option.some.injEq] at hs; subst hs
    show (if s.isepic_switch ≠ 0 then _ else s).wf
    by_cases hsw : s.isepic_switch ≠ 0
    · rw [if_pos hsw]; exact ⟨page_expr_lt addr, h.2⟩
    · rw [if_neg hsw]; exact h
  | isepic_reg_store addr byte =>
    simp only [step, Option.some.injEq] at hs; subst hs
    show (if s.isepic_switch ≠ 0 then _ else s).wf
    by_cases hsw : s.isepic_switch ≠ 0
    · rw [if_pos hsw]; exact ⟨page_expr_lt addr, h.2⟩
    · rw [if_neg hsw]; exact h
  | isepic_window_read addr =>
    simp only [step] at hs
    obtain ⟨r, hr, hsnd⟩ := map_some_inv _ _ _ hs
    subst hsnd
    unfold isepic_window_read at hr
    by_cases hsw : s.isepic_switch ≠ 0
    · simp only [hsw, ne_eq, not_false_eq_true, if_true] at hr
      obtain ⟨v, _, hv⟩ := map_some_inv _ _ _ hr
      subst hv
      exact h
    · simp only [hsw, ne_eq, if_false, Option.some.injEq] at hr
      subst hr
      exact h
  | isepic_window_store addr byte =>
    simp only [step] at hs
    unfold isepic_window_store at hs
    by_cases hsw : s.isepic_switch ≠ 0
    · rw [if_pos hsw] at hs
      obtain ⟨p, hp, hs⟩ := map_some_inv _ _ _ hs
      subst hs
      exact wf_ram_store s _ _ p h hp
    · rw [if_neg hsw, Option.some.injEq] at hs
      subst hs; exact h
  | isepic_romh_read mem addr =>
    simp only [step] at hs
    obtain ⟨_, _, hs⟩ := map_some_inv _ _ _ hs
    subst hs; exact h
  | isepic_romh_store addr byte =>
    simp only [step] at hs
    obtain ⟨r, hr, hfst⟩ := map_some_inv _ _ _ hs
    subst hfst
    unfold isepic_romh_store at hr
    by_cases ha : addr = 0xfffa ∨ addr = 0xfffb
    · rw [if_pos ha] at hr
      obtain ⟨p, hp, hr⟩ := map_some_inv _ _ _ hr
      subst hr
      exact wf_ram_store s _ _ p h hp
    · rw [if_neg ha, Option.some.injEq] at hr
      subst hr; exact h
  | isepic_roml_read _ _ => simp only [step, Option.some.injEq] at hs; subst hs; exact h
  | isepic_roml_store _ _ => simp only [step, Option.some.injEq] at hs; subst hs; exact h
  | isepic_1000_7fff_read _ _ => simp only [step, Option.some.injEq] at hs; subst hs; exact h
  | isepic_1000_7fff_store _ _ => simp only [step, Option.some.injEq] at hs; subst hs; exact h
  | isepic_a000_bfff_read _ _ => simp only [step, Option.some.injEq] at hs; subst hs; exact h
  | isepic_a000_bfff_store _ _ => simp only [step, Option.some.injEq] at hs; subst hs; exact h
  | isepic_c000_cfff_read _ _ => simp only [step, Option.some.injEq] at hs; subst hs; exact h
  | isepic_c000_cfff_store _ _ => simp only [step, Option.some.injEq] at hs; subst hs; exact h

theorem wf_run (ops : List Op) : ∀ s s1 : State, s.wf → run ops s = some s1 → s1.wf := by
  induction ops with
  | nil => intro s s1 h hs; simp only [run, Option.some.injEq] at hs; subst hs; exact h
  | cons op ops ih =>
    intro s s1 h hs
    simp only [run] at hs
    cases hstep : step op s with
    | none => rw [hstep] at hs; simp at hs
    | some s2 =>
      rw [hstep] at hs
      exact ih s2 s1 (wf_step op s s2 h hstep) hs

/-- C4 as stated fails: after enabling and then disabling, `isepic_enabled` is 0
while `isepic_ram` still holds the (now dangling) non-null pointer, because
`set_isepic_enabled` frees the block without resetting the variable. -/
theorem ram_pointer_nonnull_after_disable :
    (run enable_then_disable State.init).map
        (fun s => (s.isepic_enabled, s.isepic_ram.is_null, s.isepic_ram))
      = some (0, false, ram_ptr.freed) := by
  rfl

/-- C4, amended: in every state reachable from the initial state by any finite
sequence of setter and bus-handler calls, the onboard buffer is allocated
(the pointer refers to a live block) if and only if `isepic_enabled` is
non-zero, an enabled instance has a non-null pointer, and the I/O1 and I/O2
list items are held if and only if `isepic_enabled` is non-zero (both are
`NULL` when it is zero). -/
theorem reachable_buffer_and_handlers (ops : List Op) (s : State)
    (h : run ops State.init = some s) :
    (s.isepic_ram.is_live = true ↔ s.isepic_enabled ≠ 0)
    ∧ (s.isepic_enabled ≠ 0 → s.isepic_ram.is_null = false)
    ∧ (s.isepic_io1_list_item.isSome = true ∧ s.isepic_io2_list_item.isSome = true
        ↔ s.isepic_enabled ≠ 0)
    ∧ (s.isepic_io1_list_item = some .isepic_io1_device
        ∧ s.isepic_io2_list_item = some .isepic_io2_device ↔ s.isepic_enabled ≠ 0)
    ∧ (s.isepic_io1_list_item = none ∧ s.isepic_io2_list_item = none
        ↔ s.isepic_enabled = 0) := by
  obtain ⟨_, hen, hdis⟩ := wf_run ops State.init s wf_init h
  by_cases he : s.isepic_enabled = 0
  · obtain ⟨hl, i1, i2⟩ := hdis he
    simp [he, hl, i1, i2]
  · obtain ⟨⟨bytes, hb, _⟩, i1, i2⟩ := hen he
    simp [he, hb, i1, i2, ram_ptr.is_live, ram_ptr.is_null]

/-- Instance of C4 (amended): the state reached by one enabling call. -/
theorem reachable_buffer_and_handlers_witness :
    run [Op.set_isepic_enabled (fun _ => 0) 1] State.init
        = some (set_isepic_enabled (fun _ => 0) 1 State.init).state
    ∧ ((set_isepic_enabled (fun _ => 0) 1 State.init).state.isepic_ram.is_live = true
        ↔ (set_isepic_enabled (fun _ => 0) 1 State.init).state.isepic_enabled ≠ 0) :=
  ⟨rfl, (reachable_buffer_and_handlers [Op.set_isepic_enabled (fun _ => 0) 1] _ rfl).1⟩

/-- C5: in every state reachable from the initial state (page 0) by any finite
sequence of calls with arbitrary addresses and byte values, `isepic_page` lies
in `[0, 8)`; consequently the offset `page*256 + (addr & 0xff)` computed by the
window and ROM-high handlers does not wrap and is below 2048, the size of the
buffer an enabled instance holds. -/
theorem reachable_page_in_range (ops : List Op) (s : State)
    (h : run ops State.init = some s) :
    s.isepic_page < 8
    ∧ (∀ addr : Nat,
        ram_index s.isepic_page addr = s.isepic_page * 256 + (addr &&& 0xff)
        ∧ ram_index s.isepic_page addr < 2048)
    ∧ (s.isepic_enabled ≠ 0 →
        ∃ bytes : List Nat, s.isepic_ram = .live bytes ∧ bytes.length = 2048
          ∧ ∀ addr : Nat, ram_index s.isepic_page addr < bytes.length) := by
  obtain ⟨hp, hen, _⟩ := wf_run ops State.init s wf_init h
  refine ⟨hp, fun addr => ram_index_of_page_lt _ addr hp, ?_⟩
  intro he
  obtain ⟨⟨bytes, hb, hl⟩, _, _⟩ := hen he
  refine ⟨bytes, hb, hl, ?_⟩
  intro addr
  rw [hl]
  exact (ram_index_of_page_lt _ addr hp).2

/-- Instance of C5: switch on, then a register write at `$DE07`. -/
theorem reachable_page_in_range_witness :
    run [Op.set_isepic_switch 1, Op.isepic_reg_store 0xDE07 0] State.init
        = some (isepic_reg_store 0xDE07 0 (set_isepic_switch 1 State.init).state)
    ∧ (isepic_reg_store 0xDE07 0 (set_isepic_switch 1 State.init).state).isepic_page < 8 :=
  ⟨rfl,
   (reachable_page_in_range [Op.set_isepic_switch 1, Op.isepic_reg_store 0xDE07 0] _ rfl).1⟩

/-! ## Idempotence of the enable setter -/

/-- C6: `set_isepic_enabled` is idempotent. For every state `s` and value `v`,
calling `set_isepic_enabled(v)` on the state produced by
`set_isepic_enabled(v)` from `s` returns 0, leaves every state field unchanged
and emits no call at all; so enabling a disabled instance twice performs
exactly one allocation and disabling an enabled instance twice performs
exactly one free. -/
theorem set_isepic_enabled_idempotent (fresh fresh2 : Nat → Nat) (v : Int) (s : State) :
    (set_isepic_enabled fresh2 v (set_isepic_enabled fresh v s).state).ret = 0
    ∧ (set_isepic_enabled fresh2 v (set_isepic_enabled fresh v s).state).state
        = (set_isepic_enabled fresh v s).state
    ∧ (set_isepic_enabled fresh2 v (set_isepic_enabled fresh v s).state).effects = []
    ∧ (s.isepic_enabled = 0 → v ≠ 0 →
        ((set_isepic_enabled fresh v s).effects
          ++ (set_isepic_enabled fresh2 v (set_isepic_enabled fresh v s).state).effects).countP
            Effect.is_malloc = 1)
    ∧ (s.isepic_enabled ≠ 0 → v = 0 →
        ((set_isepic_enabled fresh v s).effects
          ++ (set_isepic_enabled fresh2 v (set_isepic_enabled fresh v s).state).effects).countP
            Effect.is_free = 1) := by
  unfold set_isepic_enabled
  by_cases h1 : s.isepic_enabled = 0 <;> by_cases h2 : v = 0 <;>
    by_cases h3 : s.isepic_switch = 0 <;>
    simp [h1, h2, h3, Effect.is_malloc, Effect.is_free]

/-! ## Register range with the switch off -/

/-- C7 as stated fails: on an enabled instance with the switch off and page 0
selected, a register-range read or write at `$DE04` leaves the page at 0,
whereas the formula gives 1. -/
theorem reg_access_ignored_when_switch_off :
    State.hidden_enabled.isepic_switch = 0
    ∧ State.hidden_enabled.isepic_page = 0
    ∧ (isepic_reg_read 0xDE04 State.hidden_enabled).2.isepic_page = 0
    ∧ (isepic_reg_store 0xDE04 0 State.hidden_enabled).isepic_page = 0
    ∧ ((0xDE04 >>> 2) &&& 1) ||| (0xDE04 &&& 2) ||| ((0xDE04 &&& 1) <<< 2) = 1 := by
  decide

/-- C7, amended: for every state, address `a` and byte `v`, a register-range
read or write recomputes `isepic_page` from the address alone when the switch
is on, giving `((a>>2)&1) | (a&2) | ((a&1)<<2)` independently of `v`, of the
previous page and of the enable flag; when the switch is off the access leaves
`isepic_page` unchanged. The read returns 0 in both cases and no other field
changes. -/
theorem reg_access_page_by_switch (s : State) (a v : Nat) :
    (isepic_reg_read a s).2.isepic_page
        = (if s.isepic_switch ≠ 0 then ((a >>> 2) &&& 1) ||| (a &&& 2) ||| ((a &&& 1) <<< 2)
           else s.isepic_page)
    ∧ (isepic_reg_store a v s).isepic_page
        = (if s.isepic_switch ≠ 0 then ((a >>> 2) &&& 1) ||| (a &&& 2) ||| ((a &&& 1) <<< 2)
           else s.isepic_page)
    ∧ (isepic_reg_read a s).1 = 0
    ∧ (isepic_reg_read a s).2 = isepic_reg_store a v s
    ∧ isepic_reg_store a v s = { s with isepic_page := (isepic_reg_store a v s).isepic_page } := by
  have hf := page_expr_eq_formula a
  by_cases hsw : s.isepic_switch ≠ 0
  · refine ⟨?_, ?_, rfl, rfl, ?_⟩
    · rw [if_pos hsw, ← hf]; simp [isepic_reg_read, hsw]
    · rw [if_pos hsw, ← hf]; simp [isepic_reg_store, hsw]
    · simp [isepic_reg_store, hsw]
  · refine ⟨?_, ?_, rfl, rfl, ?_⟩
    · rw [if_neg hsw]; simp [isepic_reg_read, hsw]
    · rw [if_neg hsw]; simp [isepic_reg_store, hsw]
    · simp [isepic_reg_store, hsw]

/-! ## Validity flag of the RAM window -/

/-- C8: with the switch off, `isepic_window_read(a)` returns 0 and leaves the
I/O2 validity flag `io_source_valid` at 0, whatever the page, the memory
contents and the previous value of the flag, and changes nothing else; with the
switch on and the offset inside the allocated buffer the read returns the
addressed byte and leaves the flag at 1. After any window read the flag equals
the switch position and does not depend on its previous value. -/
theorem window_read_validity (s : State) (a : Nat) :
    (s.isepic_switch = 0 →
      isepic_window_read a s
        = some (0, { s with
            isepic_io2_device := { s.isepic_io2_device with io_source_valid := 0 } }))
    ∧ (s.isepic_switch ≠ 0 → ∀ bytes : List Nat, s.isepic_ram = .live bytes →
        ∀ hidx : ram_index s.isepic_page a < bytes.length,
        isepic_window_read a s
          = some (bytes[ram_index s.isepic_page a], { s with
              isepic_io2_device := { s.isepic_io2_device with io_source_valid := 1 } }))
    ∧ (∀ (r : Nat) (s1 : State), isepic_window_read a s = some (r, s1) →
        s1.isepic_io2_device.io_source_valid = (if s.isepic_switch ≠ 0 then 1 else 0)
        ∧ s1.isepic_switch = s.isepic_switch) := by
  refine ⟨?_, ?_, ?_⟩
  · intro hsw
    simp [isepic_window_read, hsw]
  · intro hsw bytes hram hidx
    simp [isepic_window_read, hsw, hram, ram_load, List.getElem?_eq_getElem hidx]
  · intro r s1 h
    unfold isepic_window_read at h
    by_cases hsw : s.isepic_switch ≠ 0
    · simp only [hsw, ne_eq, not_false_eq_true, if_true] at h
      obtain ⟨b, _, hb⟩ := map_some_inv _ _ _ h
      injection hb with _ hs1
      subst hs1
      exact ⟨by rw [if_pos hsw], rfl⟩
    · simp only [hsw, ne_eq, if_false, Option.some.injEq] at h
      injection h with _ hs1
      subst hs1
      exact ⟨by rw [if_neg hsw], rfl⟩

/-! ## Enabling and disabling -/

/-- C9: on a disabled instance `set_isepic_enabled` with a non-zero value
returns 0, allocates exactly one buffer of 2048 bytes, registers the I/O1 and
the I/O2 device, sets `isepic_enabled`, emits `cartridge_config_changed(2, 3, 0)`
if and only if the switch is already on, and emits no freeze trigger. -/
theorem enable_from_disabled (fresh : Nat → Nat) (val : Int) (s : State)
    (hdis : s.isepic_enabled = 0) (hval : val ≠ 0) :
    (set_isepic_enabled fresh val s).ret = 0
    ∧ (set_isepic_enabled fresh val s).effects
        = [Effect.lib_malloc 2048, Effect.c64io_register .isepic_io1_device,
           Effect.c64io_register .isepic_io2_device]
          ++ (if s.isepic_switch ≠ 0 then [Effect.cartridge_config_changed 2 3 0] else [])
    ∧ (set_isepic_enabled fresh val s).state
        = { s with
            isepic_ram := .live ((List.range 2048).map fresh)
            isepic_enabled := 1
            isepic_io1_list_item := some .isepic_io1_device
            isepic_io2_list_item := some .isepic_io2_device }
    ∧ ((List.range 2048).map fresh).length = 2048
    ∧ (set_isepic_enabled fresh val s).effects.countP Effect.is_malloc = 1
    ∧ (Effect.cartridge_config_changed 2 3 0 ∈ (set_isepic_enabled fresh val s).effects
        ↔ s.isepic_switch ≠ 0)
    ∧ Effect.cartridge_trigger_freeze ∉ (set_isepic_enabled fresh val s).effects := by
  unfold set_isepic_enabled
  by_cases h3 : s.isepic_switch = 0 <;>
    simp [hdis, hval, h3, Effect.is_malloc, lib_malloc, c64io_register]

/-- Instance of C9: enabling the disabled instance whose switch is already on. -/
theorem enable_from_disabled_witness :
    State.switched_on.isepic_enabled = 0
    ∧ (set_isepic_enabled (fun _ => 0) 1 State.switched_on).effects
        = [Effect.lib_malloc 2048, Effect.c64io_register .isepic_io1_device,
           Effect.c64io_register .isepic_io2_device, Effect.cartridge_config_changed 2 3 0] :=
  ⟨rfl, (enable_from_disabled (fun _ => 0) 1 State.switched_on rfl (by decide)).2.1⟩

/-- C10 as stated fails: disabling the enabled instance whose switch is on frees
the buffer and unregisters both handlers before the configuration revert and
the freeze release. -/
theorem disable_frees_before_revert :
    State.mapped_page5.isepic_enabled ≠ 0
    ∧ State.mapped_page5.isepic_switch ≠ 0
    ∧ (set_isepic_enabled (fun _ => 0) 0 State.mapped_page5).effects
        = [Effect.lib_free, Effect.c64io_unregister (some .isepic_io1_device),
           Effect.c64io_unregister (some .isepic_io2_device),
           Effect.cartridge_config_changed 2 2 0, Effect.cartridge_release_freeze]
    ∧ (set_isepic_enabled (fun _ => 0) 0 State.mapped_page5).effects.indexOf Effect.lib_free
        < (set_isepic_enabled (fun _ => 0) 0 State.mapped_page5).effects.indexOf
            (Effect.cartridge_config_changed 2 2 0) := by
  decide

/-- C10, amended: on an enabled instance whose switch is on, the effect trace of
`set_isepic_enabled(0)` is, in this order: free the buffer, unregister the I/O1
handler, unregister the I/O2 handler, revert the bus configuration
(`cartridge_config_changed(2, 2, 0)`), release the freeze. The free and both
unregistrations precede the configuration revert and the release. -/
theorem disable_effect_order (fresh : Nat → Nat) (s : State)
    (hen : s.isepic_enabled ≠ 0) (hsw : s.isepic_switch ≠ 0) :
    (set_isepic_enabled fresh 0 s).effects
      = [Effect.lib_free, Effect.c64io_unregister s.isepic_io1_list_item,
         Effect.c64io_unregister s.isepic_io2_list_item,
         Effect.cartridge_config_changed 2 2 0, Effect.cartridge_release_freeze]
    ∧ (set_isepic_enabled fresh 0 s).ret = 0
    ∧ (set_isepic_enabled fresh 0 s).state
        = { s with
            isepic_ram := lib_free s.isepic_ram
            isepic_enabled := 0
            isepic_io1_list_item := none
            isepic_io2_list_item := none } := by
  unfold set_isepic_enabled
  simp [hen, hsw]

/-- Instance of C10 (amended): the enabled instance with the switch on. -/
theorem disable_effect_order_witness :
    State.mapped_page5.isepic_enabled ≠ 0
    ∧ State.mapped_page5.isepic_switch ≠ 0
    ∧ (set_isepic_enabled (fun _ => 0) 0 State.mapped_page5).effects
        = [Effect.lib_free, Effect.c64io_unregister State.mapped_page5.isepic_io1_list_item,
           Effect.c64io_unregister State.mapped_page5.isepic_io2_list_item,
           Effect.cartridge_config_changed 2 2 0, Effect.cartridge_release_freeze] :=
  ⟨by decide, by decide,
   (disable_effect_order (fun _ => 0) State.mapped_page5 (by decide) (by decide)).1⟩

/-! ## Switching on while enabled -/

/-- C11: on the enabled instance with the switch off, `set_isepic_switch(1)`
returns 0, sets the switch and raises the freeze trigger exactly once, but its
trace contains no `cartridge_config_changed` call at all, whereas the enable
path on the disabled instance with the switch on does emit the Mapped
configuration `cartridge_config_changed(2, 3, 0)`. -/
theorem switch_on_emits_trigger_only :
    State.hidden_enabled.isepic_enabled ≠ 0
    ∧ State.hidden_enabled.isepic_switch = 0
    ∧ (set_isepic_switch 1 State.hidden_enabled).ret = 0
    ∧ (set_isepic_switch 1 State.hidden_enabled).state.isepic_switch = 1
    ∧ (set_isepic_switch 1 State.hidden_enabled).effects = [Effect.cartridge_trigger_freeze]
    ∧ Effect.cartridge_config_changed 2 3 0 ∉ (set_isepic_switch 1 State.hidden_enabled).effects
    ∧ Effect.cartridge_config_changed 2 3 0
        ∈ (set_isepic_enabled (fun _ => 0) 1 State.switched_on).effects := by
  decide

/-! ## Switching while disabled -/

/-- C12: on a disabled instance `set_isepic_switch(v)` returns 0, emits no call
(no configuration change, no freeze trigger, no freeze release), leaves the
switch on exactly when `v` is non-zero (the stored value is `v != 0` whenever
the previous value was 0 or 1) and leaves `isepic_enabled`, `isepic_page`,
`isepic_ram`, both list items and every other field unchanged. -/
theorem switch_while_disabled (v : Int) (s : State) (hdis : s.isepic_enabled = 0) :
    (set_isepic_switch v s).ret = 0
    ∧ (set_isepic_switch v s).effects = []
    ∧ ((set_isepic_switch v s).state.isepic_switch ≠ 0 ↔ v ≠ 0)
    ∧ (s.isepic_switch = 0 ∨ s.isepic_switch = 1 →
        (set_isepic_switch v s).state.isepic_switch = (if v ≠ 0 then 1 else 0))
    ∧ (set_isepic_switch v s).state.isepic_enabled = s.isepic_enabled
    ∧ (set_isepic_switch v s).state.isepic_page = s.isepic_page
    ∧ (set_isepic_switch v s).state.isepic_ram = s.isepic_ram
    ∧ (set_isepic_switch v s).state.isepic_io1_list_item = s.isepic_io1_list_item
    ∧ (set_isepic_switch v s).state.isepic_io2_list_item = s.isepic_io2_list_item
    ∧ (set_isepic_switch v s).state
        = { s with isepic_switch := (set_isepic_switch v s).state.isepic_switch } := by
  obtain ⟨en, sw, ram, pg, dev, i1, i2⟩ := s
  simp only at hdis
  subst hdis
  unfold set_isepic_switch
  by_cases h1 : sw = 0 <;> by_cases h2 : v = 0 <;> simp [h1, h2]

/-- Instance of C12: the initial (disabled) state, switch moved on. -/
theorem switch_while_disabled_witness :
    State.init.isepic_enabled = 0
    ∧ (set_isepic_switch 1 State.init).effects = []
    ∧ ((set_isepic_switch 1 State.init).state.isepic_switch ≠ 0 ↔ (1 : Int) ≠ 0) :=
  ⟨rfl, (switch_while_disabled 1 State.init rfl).2.1, (switch_while_disabled 1 State.init rfl).2.2.1⟩

/-! ## Disable followed by enable -/

theorem reenable_state (fresh0 fresh : Nat → Nat) (v : Int) (s : State)
    (hen : s.isepic_enabled ≠ 0) (hv : v ≠ 0) :
    (set_isepic_enabled fresh v (set_isepic_enabled fresh0 0 s).state).state
      = { s with
          isepic_ram := .live ((List.range 2048).map fresh)
          isepic_enabled := 1
          isepic_io1_list_item := some .isepic_io1_device
          isepic_io2_list_item := some .isepic_io2_device } := by
  unfold set_isepic_enabled
  simp [hen, hv, lib_malloc, c64io_register]

theorem fresh_block_byte (fresh : Nat → Nat) (i : Nat) (hi : i < 2048) :
    ((List.range 2048).map fresh)[i]? = some (fresh i) := by
  rw [List.getElem?_map, List.getElem?_range hi]
  rfl

/-- C13: on an enabled instance with arbitrary buffer contents,
`set_isepic_enabled(0)` followed by `set_isepic_enabled(v)` with `v` non-zero
leaves the instance enabled with a newly allocated 2048-byte block and
otherwise unchanged; with the switch on, `isepic_window_read` on any page below
8 and any address then returns the byte the allocator put at offset
`page*256 + (addr & 0xff)` of the fresh block, never a byte of the old
buffer, and with the zeroed fresh block of the spec it returns 0. -/
theorem reenable_gives_fresh_buffer (fresh0 : Nat → Nat) (v : Int) (s : State)
    (hen : s.isepic_enabled ≠ 0) (hv : v ≠ 0) :
    (∀ fresh : Nat → Nat,
      (set_isepic_enabled fresh v (set_isepic_enabled fresh0 0 s).state).state
        = { s with
            isepic_ram := .live ((List.range 2048).map fresh)
            isepic_enabled := 1
            isepic_io1_list_item := some .isepic_io1_device
            isepic_io2_list_item := some .isepic_io2_device })
    ∧ (s.isepic_switch ≠ 0 → ∀ q a : Nat, q < 8 →
        (∀ fresh : Nat → Nat,
          (isepic_window_read a
            { (set_isepic_enabled fresh v (set_isepic_enabled fresh0 0 s).state).state
              with isepic_page := q }).map Prod.fst
            = some (fresh (q * 256 + (a &&& 0xff))))
        ∧ (isepic_window_read a
            { (set_isepic_enabled lib_malloc_zeroed v
                (set_isepic_enabled fresh0 0 s).state).state
              with isepic_page := q }).map Prod.fst
            = some 0) := by
  refine ⟨fun fresh => reenable_state fresh0 fresh v s hen hv, ?_⟩
  intro hsw q a hq
  have hidx := ram_index_of_page_lt q a hq
  have hread : ∀ fresh : Nat → Nat,
      (isepic_window_read a
        { (set_isepic_enabled fresh v (set_isepic_enabled fresh0 0 s).state).state
          with isepic_page := q }).map Prod.fst
        = some (fresh (q * 256 + (a &&& 0xff))) := by
    intro fresh
    rw [reenable_state fresh0 fresh v s hen hv]
    refine (window_read_of_live
      { ({ s with
            isepic_ram := .live ((List.range 2048).map fresh)
            isepic_enabled := 1
            isepic_io1_list_item := some .isepic_io1_device
            isepic_io2_list_item := some .isepic_io2_device } : State)
        with isepic_page := q }
      ((List.range 2048).map fresh) a hsw rfl).trans ?_
    show ((List.range 2048).map fresh)[ram_index q a]? = _
    rw [fresh_block_byte fresh _ hidx.2, hidx.1]
  exact ⟨hread, hread lib_malloc_zeroed⟩

/-- Instance of C13: a buffer full of `0xAA`, disabled and re-enabled, reads 0
at `$DF10` on page 5. -/
theorem reenable_gives_fresh_buffer_witness :
    State.mapped_dirty.isepic_enabled ≠ 0
    ∧ (isepic_window_read 0xDF10 State.mapped_dirty).map Prod.fst = some 0xAA
    ∧ (isepic_window_read 0xDF10
        { (set_isepic_enabled lib_malloc_zeroed 1
            (set_isepic_enabled lib_malloc_zeroed 0 State.mapped_dirty).state).state
          with isepic_page := 5 }).map Prod.fst
        = some 0 :=
  ⟨by decide,
   (window_read_of_live State.mapped_dirty (List.replicate 2048 0xAA) 0xDF10
      (by decide) rfl).trans
        (List.getElem?_replicate_of_lt
          (ram_index_of_page_lt State.mapped_dirty.isepic_page 0xDF10 (by decide)).2),
   ((reenable_gives_fresh_buffer lib_malloc_zeroed 1 State.mapped_dirty (by decide)
      (by decide)).2 (by decide) 5 0xDF10 (by decide)).2⟩

end Isepic
